/-
Shallow embedding of the stackpulse monitoring pipeline, translated from the
Go sources (internal/types, internal/config, internal/alerts/manager.go,
internal/metrics/collector.go and the monitor package).

Conventions of the embedding:
* Go float64 values are modelled as rationals (exact arithmetic); Go uint64
  fields as Nat; Go int fields as Int.
* Wall clock readings (time.Now) are modelled by an explicit Nat parameter
  passed to every function that stamps a record with the current time.
* Fallible operations (Go (T, error) returns) are modelled with Option.
* Go maps keyed by strings are modelled as association lists.
* A Sprintf-formatted message is modelled as a tagged tuple of the format
  template and its numeric arguments: two messages are equal exactly when
  the template and the arguments agree, which matches equality of the
  rendered strings (each check uses a distinct literal template).
-/
import Mathlib

namespace Stackpulse

/-- Severity constants of internal/types: SeverityInfo, SeverityWarning,
SeverityCritical. -/
inductive Severity where
  | info
  | warning
  | critical
deriving DecidableEq

/-- The seven checks performed by CheckThresholds, in source order.  The two
event-loop checks share the Go AlertType string "eventloop" but are distinct
metric kinds. -/
inductive MetricKind where
  | cpu
  | memory
  | heap
  | eventLoopLag
  | eventLoopUtilization
  | gc
  | handles
deriving DecidableEq

/-- Message templates of the fmt.Sprintf calls in CheckThresholds, with their
numeric arguments. -/
inductive Msg where
  | highCpu (usage threshold : ℚ)
  | highMemory (mb : ℚ)
  | highHeap (pct : ℚ)
  | highLag (lag : ℚ)
  | highUtilization (u : ℚ)
  | longGC (d : ℚ)
  | highHandles (n : Int)
deriving DecidableEq

/-- internal/types Alert. -/
structure Alert where
  type : String
  severity : Severity
  message : Msg
  value : ℚ
  threshold : ℚ
  timestamp : Nat
deriving DecidableEq

/-- internal/types CPUMetrics. -/
structure CPUMetrics where
  usage : ℚ
  userTime : ℚ
  systemTime : ℚ
  timestamp : Nat
deriving DecidableEq

/-- internal/types MemoryMetrics. -/
structure MemoryMetrics where
  rss : Nat
  vms : Nat
  heapTotal : Nat
  heapUsed : Nat
  external : Nat
  timestamp : Nat
deriving DecidableEq

/-- internal/types EventLoopMetrics. -/
structure EventLoopMetrics where
  lag : ℚ
  mean : ℚ
  max : ℚ
  p95 : ℚ
  min : ℚ
  utilization : ℚ
  timestamp : Nat
deriving DecidableEq

/-- internal/types ThreadPoolMetrics. -/
structure ThreadPoolMetrics where
  queueSize : Int
  poolSize : Int
  activeCount : Int
  pendingCount : Int
  timestamp : Nat
deriving DecidableEq

/-- internal/types GCMetrics. -/
structure GCMetrics where
  collections : Int
  duration : ℚ
  heapSizeBefore : Nat
  heapSizeAfter : Nat
  type : String
  reason : String
  collectionsTotal : Int
  durationTotal : ℚ
  timestamp : Nat
deriving DecidableEq

/-- internal/types HandleMetrics. -/
structure HandleMetrics where
  active : Int
  refs : Int
  timers : Int
  tcpSockets : Int
  udpSockets : Int
  files : Int
  timestamp : Nat
deriving DecidableEq

/-- internal/types V8Metrics; the Go string-keyed maps are association
lists. -/
structure V8Metrics where
  heapSpaceUsed : List (String × Nat)
  heapSpaceSize : List (String × Nat)
  heapSpaceAvailable : List (String × Nat)
  mallocedMemory : Nat
  peakMallocedMemory : Nat
  timestamp : Nat
deriving DecidableEq

/-- internal/types Status. -/
structure Status where
  pid : Int
  cpu : CPUMetrics
  memory : MemoryMetrics
  eventLoop : EventLoopMetrics
  threadPool : ThreadPoolMetrics
  gc : GCMetrics
  handles : HandleMetrics
  v8 : V8Metrics
  timestamp : Nat
  alerts : List Alert
deriving DecidableEq

/-- internal/config ServiceConfig. -/
structure ServiceConfig where
  host : String
  port : Int
  pid : Int
  inspectPort : Int
  pollingIntervalMs : Nat
  heapLimit : String
  cpuThreshold : ℚ
deriving DecidableEq

/-- internal/alerts Manager: its only field is the activeAlerts map, which
CheckThresholds neither reads nor writes. -/
structure Manager where
  activeAlerts : List (String × Alert)
deriving DecidableEq

/-- internal/alerts/manager.go CheckThresholds.  The Go method takes the
receiver m and returns only the alert slice; the embedding also returns the
receiver state to make explicit that the method leaves it untouched.  Each
alert is stamped with the clock parameter now, standing for the time.Now()
calls made while the method runs. -/
def checkThresholds (m : Manager) (status : Status) (cfg : ServiceConfig)
    (now : Nat) : List Alert × Manager :=
  let alerts : List Alert := []
  -- Check CPU threshold
  let alerts := if status.cpu.usage > cfg.cpuThreshold then
      alerts ++ [{ type := "cpu",
                   severity := if status.cpu.usage > 90 then .critical else .warning,
                   message := .highCpu status.cpu.usage cfg.cpuThreshold,
                   value := status.cpu.usage,
                   threshold := cfg.cpuThreshold,
                   timestamp := now }]
    else alerts
  -- Check memory threshold (the source divides RSS by 1024 twice)
  let memoryMB : ℚ := (status.memory.rss : ℚ) / 1024 / 1024
  let alerts := if memoryMB > 150 then
      alerts ++ [{ type := "memory",
                   severity := if memoryMB > 200 then .critical else .warning,
                   message := .highMemory memoryMB,
                   value := memoryMB,
                   threshold := 150,
                   timestamp := now }]
    else alerts
  -- Check heap usage: the division only happens under the heapTotal > 0 guard
  let alerts := if status.memory.heapTotal > 0 then
      (let heapUsage : ℚ :=
        ((status.memory.heapUsed : ℚ) / (status.memory.heapTotal : ℚ)) * 100
       if heapUsage > 80 then
        alerts ++ [{ type := "heap",
                     severity := if heapUsage > 95 then .critical else .warning,
                     message := .highHeap heapUsage,
                     value := heapUsage,
                     threshold := 80,
                     timestamp := now }]
       else alerts)
    else alerts
  -- Check event loop lag
  let alerts := if status.eventLoop.lag > 5 then
      alerts ++ [{ type := "eventloop",
                   severity := if status.eventLoop.lag > 20 then .critical else .warning,
                   message := .highLag status.eventLoop.lag,
                   value := status.eventLoop.lag,
                   threshold := 5,
                   timestamp := now }]
    else alerts
  -- Check event loop utilization
  let alerts := if status.eventLoop.utilization > 70 then
      alerts ++ [{ type := "eventloop",
                   severity := if status.eventLoop.utilization > 90 then .critical else .warning,
                   message := .highUtilization status.eventLoop.utilization,
                   value := status.eventLoop.utilization,
                   threshold := 70,
                   timestamp := now }]
    else alerts
  -- Check GC duration
  let alerts := if status.gc.duration > 10 then
      alerts ++ [{ type := "gc",
                   severity := if status.gc.duration > 50 then .critical else .warning,
                   message := .longGC status.gc.duration,
                   value := status.gc.duration,
                   threshold := 10,
                   timestamp := now }]
    else alerts
  -- Check handle count
  let alerts := if status.handles.active > 50 then
      alerts ++ [{ type := "handles",
                   severity := if status.handles.active > 100 then .critical else .warning,
                   message := .highHandles status.handles.active,
                   value := (status.handles.active : ℚ),
                   threshold := 50,
                   timestamp := now }]
    else alerts
  (alerts, m)

/-- The metric kind a given alert reports, read off the message template. -/
def kindOf (a : Alert) : MetricKind :=
  match a.message with
  | .highCpu _ _ => .cpu
  | .highMemory _ => .memory
  | .highHeap _ => .heap
  | .highLag _ => .eventLoopLag
  | .highUtilization _ => .eventLoopUtilization
  | .longGC _ => .gc
  | .highHandles _ => .handles

/-- The RSS value in megabytes, as computed by CheckThresholds. -/
def memMB (s : Status) : ℚ := (s.memory.rss : ℚ) / 1024 / 1024

/-- The heap usage percentage, as computed by CheckThresholds under its
heapTotal > 0 guard. -/
def heapPct (s : Status) : ℚ :=
  ((s.memory.heapUsed : ℚ) / (s.memory.heapTotal : ℚ)) * 100

/-- The alert list contains an alert of the given kind and severity. -/
def hasAlert (l : List Alert) (k : MetricKind) (sev : Severity) : Prop :=
  ∃ a ∈ l, kindOf a = k ∧ a.severity = sev

/-- The alert list contains no alert of the given kind. -/
def noAlert (l : List Alert) (k : MetricKind) : Prop :=
  ∀ a ∈ l, kindOf a ≠ k

instance (l : List Alert) (k : MetricKind) (sev : Severity) :
    Decidable (hasAlert l k sev) := by
  unfold hasAlert; infer_instance

instance (l : List Alert) (k : MetricKind) : Decidable (noAlert l k) := by
  unfold noAlert; infer_instance

/-- The CPU branch of CheckThresholds, as the optional alert it appends. -/
def cpuCheck (s : Status) (cfg : ServiceConfig) (now : Nat) : Option Alert :=
  if s.cpu.usage > cfg.cpuThreshold then
    some { type := "cpu",
           severity := if s.cpu.usage > 90 then .critical else .warning,
           message := .highCpu s.cpu.usage cfg.cpuThreshold,
           value := s.cpu.usage, threshold := cfg.cpuThreshold, timestamp := now }
  else none

/-- The memory branch of CheckThresholds. -/
def memCheck (s : Status) (now : Nat) : Option Alert :=
  if memMB s > 150 then
    some { type := "memory",
           severity := if memMB s > 200 then .critical else .warning,
           message := .highMemory (memMB s),
           value := memMB s, threshold := 150, timestamp := now }
  else none

/-- The heap branch of CheckThresholds; the percentage is only formed under
the heapTotal > 0 guard. -/
def heapCheck (s : Status) (now : Nat) : Option Alert :=
  if s.memory.heapTotal > 0 then
    (if heapPct s > 80 then
      some { type := "heap",
             severity := if heapPct s > 95 then .critical else .warning,
             message := .highHeap (heapPct s),
             value := heapPct s, threshold := 80, timestamp := now }
     else none)
  else none

/-- The event loop lag branch of CheckThresholds. -/
def lagCheck (s : Status) (now : Nat) : Option Alert :=
  if s.eventLoop.lag > 5 then
    some { type := "eventloop",
           severity := if s.eventLoop.lag > 20 then .critical else .warning,
           message := .highLag s.eventLoop.lag,
           value := s.eventLoop.lag, threshold := 5, timestamp := now }
  else none

/-- The event loop utilization branch of CheckThresholds. -/
def utilCheck (s : Status) (now : Nat) : Option Alert :=
  if s.eventLoop.utilization > 70 then
    some { type := "eventloop",
           severity := if s.eventLoop.utilization > 90 then .critical else .warning,
           message := .highUtilization s.eventLoop.utilization,
           value := s.eventLoop.utilization, threshold := 70, timestamp := now }
  else none

/-- The GC duration branch of CheckThresholds. -/
def gcCheck (s : Status) (now : Nat) : Option Alert :=
  if s.gc.duration > 10 then
    some { type := "gc",
           severity := if s.gc.duration > 50 then .critical else .warning,
           message := .longGC s.gc.duration,
           value := s.gc.duration, threshold := 10, timestamp := now }
  else none

/-- The handle count branch of CheckThresholds. -/
def handleCheck (s : Status) (now : Nat) : Option Alert :=
  if s.handles.active > 50 then
    some { type := "handles",
           severity := if s.handles.active > 100 then .critical else .warning,
           message := .highHandles s.handles.active,
           value := (s.handles.active : ℚ), threshold := 50, timestamp := now }
  else none

lemma append_ite_singleton {α : Type} {c : Prop} [Decidable c] (l : List α) (x : α) :
    (if c then l ++ [x] else l) = l ++ (if c then some x else none).toList := by
  split <;> simp

lemma append_ite_option {α : Type} {c : Prop} [Decidable c] (l : List α) (o : Option α) :
    (if c then l ++ o.toList else l) = l ++ (if c then o else none).toList := by
  split <;> simp

/-- The alert slice built by CheckThresholds is the concatenation of the seven
optional per-metric alerts, in source order. -/
lemma checkThresholds_fst (m : Manager) (s : Status) (cfg : ServiceConfig) (now : Nat) :
    (checkThresholds m s cfg now).1 =
      (cpuCheck s cfg now).toList ++ (memCheck s now).toList ++
      (heapCheck s now).toList ++ (lagCheck s now).toList ++
      (utilCheck s now).toList ++ (gcCheck s now).toList ++
      (handleCheck s now).toList := by
  simp only [checkThresholds, cpuCheck, memCheck, heapCheck, lagCheck, utilCheck,
    gcCheck, handleCheck, memMB, heapPct]
  simp only [append_ite_singleton]
  simp only [append_ite_option]
  simp only [List.nil_append, List.append_assoc]

/-- CheckThresholds returns its receiver unchanged. -/
lemma checkThresholds_snd (m : Manager) (s : Status) (cfg : ServiceConfig) (now : Nat) :
    (checkThresholds m s cfg now).2 = m := rfl

lemma mem_toList_ite {α : Type} {c : Prop} [Decidable c] {x a : α} :
    a ∈ (if c then some x else none).toList ↔ c ∧ a = x := by
  split <;> simp_all

lemma mem_toList_iteO {α : Type} {c : Prop} [Decidable c] {o : Option α} {a : α} :
    a ∈ (if c then o else none).toList ↔ c ∧ a ∈ o.toList := by
  split <;> simp_all

lemma noAlert_iff_not_exists (l : List Alert) (k : MetricKind) :
    noAlert l k ↔ ¬ ∃ a ∈ l, kindOf a = k := by
  unfold noAlert
  push_neg
  rfl

lemma ite_sev_crit {c : Prop} [Decidable c] :
    ((if c then Severity.critical else Severity.warning) = Severity.critical) ↔ c := by
  split <;> simp_all

lemma ite_sev_warn {c : Prop} [Decidable c] :
    ((if c then Severity.critical else Severity.warning) = Severity.warning) ↔ ¬ c := by
  split <;> simp_all

/-- The per-metric band behaviour of an alert list: for each of the seven
metric kinds, a critical alert is present iff the value exceeds the critical
band, a warning alert iff it exceeds the warning band but not the critical
band, and no alert otherwise.  Bands: CPU warning at the configured threshold
and critical 90, memory RSS (in MB) 150 and 200, heap percentage 80 and 95
(evaluated only when heap total is nonzero), event loop lag 5 and 20,
event loop utilization 70 and 90, GC duration 10 and 50, active handles 50
and 100. -/
def BandSpec (l : List Alert) (s : Status) (cfg : ServiceConfig) : Prop :=
  ((hasAlert l .cpu .critical ↔ 90 < s.cpu.usage)
    ∧ (hasAlert l .cpu .warning ↔ cfg.cpuThreshold < s.cpu.usage ∧ ¬ 90 < s.cpu.usage)
    ∧ (noAlert l .cpu ↔ ¬ cfg.cpuThreshold < s.cpu.usage))
  ∧ ((hasAlert l .memory .critical ↔ 200 < memMB s)
    ∧ (hasAlert l .memory .warning ↔ 150 < memMB s ∧ ¬ 200 < memMB s)
    ∧ (noAlert l .memory ↔ ¬ 150 < memMB s))
  ∧ ((hasAlert l .heap .critical ↔ 0 < s.memory.heapTotal ∧ 95 < heapPct s)
    ∧ (hasAlert l .heap .warning ↔
        0 < s.memory.heapTotal ∧ 80 < heapPct s ∧ ¬ 95 < heapPct s)
    ∧ (noAlert l .heap ↔ ¬ (0 < s.memory.heapTotal ∧ 80 < heapPct s)))
  ∧ ((hasAlert l .eventLoopLag .critical ↔ 20 < s.eventLoop.lag)
    ∧ (hasAlert l .eventLoopLag .warning ↔ 5 < s.eventLoop.lag ∧ ¬ 20 < s.eventLoop.lag)
    ∧ (noAlert l .eventLoopLag ↔ ¬ 5 < s.eventLoop.lag))
  ∧ ((hasAlert l .eventLoopUtilization .critical ↔ 90 < s.eventLoop.utilization)
    ∧ (hasAlert l .eventLoopUtilization .warning ↔
        70 < s.eventLoop.utilization ∧ ¬ 90 < s.eventLoop.utilization)
    ∧ (noAlert l .eventLoopUtilization ↔ ¬ 70 < s.eventLoop.utilization))
  ∧ ((hasAlert l .gc .critical ↔ 50 < s.gc.duration)
    ∧ (hasAlert l .gc .warning ↔ 10 < s.gc.duration ∧ ¬ 50 < s.gc.duration)
    ∧ (noAlert l .gc ↔ ¬ 10 < s.gc.duration))
  ∧ ((hasAlert l .handles .critical ↔ 100 < s.handles.active)
    ∧ (hasAlert l .handles .warning ↔ 50 < s.handles.active ∧ ¬ 100 < s.handles.active)
    ∧ (noAlert l .handles ↔ ¬ 50 < s.handles.active))

instance (l : List Alert) (s : Status) (cfg : ServiceConfig) :
    Decidable (BandSpec l s cfg) := by
  unfold BandSpec; infer_instance

/-- A snapshot with every reading in the normal range (used as a base for
concrete test inputs). -/
def quietStatus : Status :=
  { pid := 4242
    cpu := { usage := 0, userTime := 0, systemTime := 0, timestamp := 0 }
    memory := { rss := 0, vms := 0, heapTotal := 0, heapUsed := 0, external := 0,
                timestamp := 0 }
    eventLoop := { lag := 0, mean := 0, max := 0, p95 := 0, min := 0,
                   utilization := 0, timestamp := 0 }
    threadPool := { queueSize := 0, poolSize := 4, activeCount := 0,
                    pendingCount := 0, timestamp := 0 }
    gc := { collections := 0, duration := 0, heapSizeBefore := 0, heapSizeAfter := 0,
            type := "unknown", reason := "unknown", collectionsTotal := 0,
            durationTotal := 0, timestamp := 0 }
    handles := { active := 0, refs := 0, timers := 0, tcpSockets := 0,
                 udpSockets := 0, files := 0, timestamp := 0 }
    v8 := { heapSpaceUsed := [], heapSpaceSize := [], heapSpaceAvailable := [],
            mallocedMemory := 0, peakMallocedMemory := 0, timestamp := 0 }
    timestamp := 0
    alerts := [] }

/-- The default configuration of the watch command. -/
def defaultCfg : ServiceConfig :=
  { host := "127.0.0.1", port := 0, pid := 4242, inspectPort := 9229,
    pollingIntervalMs := 100, heapLimit := "150MB", cpuThreshold := 70 }

/-- A fresh alert manager. -/
def mgr0 : Manager := { activeAlerts := [] }

/-- C1 (amended): for every snapshot and every configuration whose CPU
threshold is at most 90, CheckThresholds produces, for each of the seven
metric kinds, a critical alert iff the value exceeds the critical band, a
warning alert iff it exceeds the warning band but not the critical band, and
no alert otherwise, with bands CPU cfg-threshold/90, memory RSS 150MB/200MB,
heap percentage 80/95 (evaluated only when heap total is nonzero), lag
5ms/20ms, utilization 70/90, GC duration 10ms/50ms, handles 50/100.  The
restriction cpuThreshold at most 90 is forced by the counterexample
c1_alert_bands_cex: the code alerts on CPU only when usage exceeds the
configured threshold, so a threshold above 90 suppresses critical alerts. -/
theorem c1_alert_bands (m : Manager) (s : Status) (cfg : ServiceConfig) (now : Nat)
    (hth : cfg.cpuThreshold ≤ 90) :
    BandSpec (checkThresholds m s cfg now).1 s cfg := by
  unfold BandSpec
  refine ⟨⟨?_, ?_, ?_⟩, ⟨?_, ?_, ?_⟩, ⟨?_, ?_, ?_⟩, ⟨?_, ?_, ?_⟩, ⟨?_, ?_, ?_⟩,
    ⟨?_, ?_, ?_⟩, ⟨?_, ?_, ?_⟩⟩ <;>
  simp [hasAlert, noAlert_iff_not_exists, checkThresholds_fst, cpuCheck, memCheck,
    heapCheck, lagCheck, utilCheck, gcCheck,
    handleCheck, mem_toList_ite, mem_toList_iteO, kindOf,
    ite_sev_crit, ite_sev_warn, or_and_right, exists_or, exists_and_left,
    exists_eq_left, and_assoc] <;>
  first
    | (intro h; exact lt_of_le_of_lt hth h)
    | (intros; linarith)

/-- C1 counterexample: with the valid configuration cpuThreshold = 95
(Validate accepts any threshold in (0, 100]) and a snapshot whose CPU usage
is 92 — strictly above the critical band 90 — CheckThresholds returns no
alert at all, so the claim that a critical alert is produced iff the value
exceeds the critical band fails as stated. -/
theorem c1_alert_bands_cex :
    (90 : ℚ) < 92 ∧ (0 : ℚ) < 95 ∧ (95 : ℚ) ≤ 100 ∧
    (checkThresholds mgr0
        { quietStatus with cpu := { quietStatus.cpu with usage := 92 } }
        { defaultCfg with cpuThreshold := 95 } 0).1 = [] := by
  refine ⟨by norm_num, by norm_num, by norm_num, ?_⟩
  norm_num [checkThresholds, quietStatus, defaultCfg]

/-- A snapshot whose CPU usage reads 95 percent and whose other readings are
in the normal range. -/
def hotStatus : Status :=
  { quietStatus with cpu := { quietStatus.cpu with usage := 95 } }

/-- C1 witness: the amended band theorem evaluated at the snapshot with CPU
usage 95 and the default configuration (threshold 70). -/
theorem c1_alert_bands_witness :
    defaultCfg.cpuThreshold ≤ 90 ∧
    BandSpec (checkThresholds mgr0 hotStatus defaultCfg 0).1 hotStatus defaultCfg :=
  ⟨by decide, c1_alert_bands mgr0 hotStatus defaultCfg 0 (by decide)⟩

/-- Evaluation of CheckThresholds on hotStatus: exactly one critical CPU
alert with value 95 and threshold 70, stamped with the clock reading. -/
lemma hot_eval (t : Nat) :
    (checkThresholds mgr0 hotStatus defaultCfg t).1 =
      [{ type := "cpu", severity := .critical, message := .highCpu 95 70,
         value := 95, threshold := 70, timestamp := t }] := by
  norm_num [checkThresholds, hotStatus, quietStatus, defaultCfg]

/-- The canonical evaluation order of the seven checks of CheckThresholds. -/
def alertKindOrder : List MetricKind :=
  [.cpu, .memory, .heap, .eventLoopLag, .eventLoopUtilization, .gc, .handles]

/-- C5: the alert list returned by CheckThresholds is ordered as CPU, memory,
heap percentage, event loop lag, event loop utilization, GC duration, handle
count (its kinds form a sublist of the canonical order), and each of the
seven metric kinds contributes at most one alert per tick. -/
theorem c5_alert_order (m : Manager) (s : Status) (cfg : ServiceConfig) (now : Nat) :
    ((checkThresholds m s cfg now).1.map kindOf).Sublist alertKindOrder
    ∧ ∀ k : MetricKind, ((checkThresholds m s cfg now).1.map kindOf).count k ≤ 1 := by
  have hsub : ((checkThresholds m s cfg now).1.map kindOf).Sublist alertKindOrder := by
    rw [checkThresholds_fst]
    simp only [List.map_append, List.append_assoc]
    show List.Sublist _ ([MetricKind.cpu] ++ ([MetricKind.memory] ++ ([MetricKind.heap] ++
      ([MetricKind.eventLoopLag] ++ ([MetricKind.eventLoopUtilization] ++
      ([MetricKind.gc] ++ [MetricKind.handles]))))))
    refine List.Sublist.append ?_ (List.Sublist.append ?_ (List.Sublist.append ?_
      (List.Sublist.append ?_ (List.Sublist.append ?_ (List.Sublist.append ?_ ?_))))) <;>
    first
      | (unfold cpuCheck; split <;> simp [kindOf])
      | (unfold memCheck; split <;> simp [kindOf])
      | (unfold heapCheck; split <;> (try split) <;> simp [kindOf])
      | (unfold lagCheck; split <;> simp [kindOf])
      | (unfold utilCheck; split <;> simp [kindOf])
      | (unfold gcCheck; split <;> simp [kindOf])
      | (unfold handleCheck; split <;> simp [kindOf])
  refine ⟨hsub, fun k => le_trans (hsub.count_le k) ?_⟩
  cases k <;> decide

/-- C6: when the snapshot carries no heap total (heapTotal = 0, the shape
produced when remote-debug data is absent), CheckThresholds emits no heap
alert, and the heap-percentage division is never evaluated: the output does
not depend on heapUsed at all. -/
theorem c6_heap_guard (m : Manager) (s : Status) (cfg : ServiceConfig) (now : Nat)
    (hu : Nat) (h : s.memory.heapTotal = 0) :
    noAlert (checkThresholds m s cfg now).1 .heap
    ∧ checkThresholds m { s with memory := { s.memory with heapUsed := hu } } cfg now
        = checkThresholds m s cfg now := by
  constructor
  · simp [noAlert_iff_not_exists, checkThresholds_fst, cpuCheck, memCheck,
      heapCheck, lagCheck, utilCheck, gcCheck, handleCheck,
      mem_toList_ite, mem_toList_iteO, kindOf, h, or_and_right, exists_or,
      exists_and_left, exists_eq_left, and_assoc]
  · simp [checkThresholds, h]

/-- C6 witness: the guard theorem applied to the quiet snapshot, whose heap
total is zero, with heapUsed overwritten by 7. -/
theorem c6_heap_guard_witness :
    quietStatus.memory.heapTotal = 0 ∧
    (noAlert (checkThresholds mgr0 quietStatus defaultCfg 0).1 .heap
     ∧ checkThresholds mgr0
         { quietStatus with memory := { quietStatus.memory with heapUsed := 7 } }
         defaultCfg 0
         = checkThresholds mgr0 quietStatus defaultCfg 0) :=
  ⟨rfl, c6_heap_guard mgr0 quietStatus defaultCfg 0 7 rfl⟩

/-- C8 (amended): CheckThresholds is a pure function of the snapshot, the
thresholds and the clock reading.  Two calls with identical snapshot and
identical thresholds return identical alert lists whenever the clock reads
the same value, irrespective of the manager state, and the manager state is
returned unchanged; the original claim fails only in that the timestamps of
two calls differ when the clock has advanced between them (c8_purity_cex). -/
theorem c8_purity (m1 m2 : Manager) (s : Status) (cfg : ServiceConfig) (now : Nat) :
    (checkThresholds m1 s cfg now).1 = (checkThresholds m2 s cfg now).1
    ∧ (checkThresholds m1 s cfg now).2 = m1 :=
  ⟨rfl, rfl⟩

/-- C8 counterexample: two calls of CheckThresholds on the identical snapshot
(CPU 95) and identical thresholds, made at clock readings 0 and 1, return
alert lists that are not identical — the alerts carry different timestamps. -/
theorem c8_purity_cex :
    ¬ ((checkThresholds mgr0 hotStatus defaultCfg 0).1
        = (checkThresholds mgr0 hotStatus defaultCfg 1).1) := by
  rw [hot_eval, hot_eval]
  simp

/-- The single alert produced by CheckThresholds on hotStatus at clock 0. -/
def cpuAlert95 : Alert :=
  { type := "cpu", severity := .critical, message := .highCpu 95 70,
    value := 95, threshold := 70, timestamp := 0 }

/-- C10: every alert returned by CheckThresholds has its observed value
strictly greater than its threshold, for every snapshot and configuration. -/
theorem c10_value_gt_threshold (m : Manager) (s : Status) (cfg : ServiceConfig)
    (now : Nat) :
    ∀ a ∈ (checkThresholds m s cfg now).1, a.threshold < a.value := by
  rw [checkThresholds_fst]
  intro a ha
  simp only [List.mem_append, mem_toList_ite, mem_toList_iteO, Option.toList_some,
    List.mem_singleton, cpuCheck, memCheck,
    heapCheck, lagCheck, utilCheck, gcCheck, handleCheck, or_assoc] at ha
  rcases ha with ⟨hc, rfl⟩ | ⟨hc, rfl⟩ | ⟨hc0, hc, rfl⟩ | ⟨hc, rfl⟩ | ⟨hc, rfl⟩ |
    ⟨hc, rfl⟩ | ⟨hc, rfl⟩ <;>
  first
    | exact hc
    | (show (50 : ℚ) < (s.handles.active : ℚ)
       exact_mod_cast hc)

/-- C10 witness: the invariant applied to the concrete critical CPU alert
produced on hotStatus. -/
theorem c10_value_gt_threshold_witness :
    cpuAlert95 ∈ (checkThresholds mgr0 hotStatus defaultCfg 0).1
    ∧ cpuAlert95.threshold < cpuAlert95.value := by
  have hm : cpuAlert95 ∈ (checkThresholds mgr0 hotStatus defaultCfg 0).1 := by
    rw [hot_eval]
    simp [cpuAlert95]
  exact ⟨hm, c10_value_gt_threshold mgr0 hotStatus defaultCfg 0 cpuAlert95 hm⟩

/-- internal/metrics/collector.go CollectEventLoop, the window update: append
the new lag to the history and drop the oldest entry once the window holds
more than 100 samples. -/
def pushLag (hist : List ℚ) (lag : ℚ) : List ℚ :=
  let h := hist ++ [lag]
  if h.length > 100 then h.drop 1 else h

/-- One left-to-right pass of the bubble sort in calculateEventLoopStats:
adjacent out-of-order elements are swapped.  The source makes the i-th pass
over indices j < n-1-i; a full pass computes the same list, because after i
passes the last i positions already hold the largest elements in sorted
order and a comparison inside that sorted, dominating suffix never swaps
(this is proved as bpass_append_sorted below). -/
def bpass : List ℚ → List ℚ
  | [] => []
  | [a] => [a]
  | a :: b :: rest => if a > b then b :: bpass (a :: rest) else a :: bpass (b :: rest)
termination_by l => l.length

/-- The outer loop of the bubble sort: n passes. -/
def sortPasses : Nat → List ℚ → List ℚ
  | 0, l => l
  | k + 1, l => sortPasses k (bpass l)

/-- The percentile index of calculateEventLoopStats: int(float64(n) * 0.95),
truncation of a nonnegative product, i.e. the floor of 0.95 times the window
length. -/
def p95Index (n : Nat) : Nat := Int.toNat ⌊(n : ℚ) * (95 / 100)⌋

/-- The four statistics returned by calculateEventLoopStats, in source order
(mean, max, min, p95). -/
structure EventLoopStats where
  mean : ℚ
  max : ℚ
  min : ℚ
  p95 : ℚ
deriving DecidableEq

/-- internal/metrics/collector.go calculateEventLoopStats: all-zero for the
empty window; otherwise one scan accumulating sum, max and min (max and min
seeded with the first element), mean = sum / length, and the 95th percentile
read from the bubble-sorted copy at the clamped index.  The single range
loop of the source is rendered as three folds over the same list. -/
def calculateEventLoopStats (hist : List ℚ) : EventLoopStats :=
  match hist with
  | [] => { mean := 0, max := 0, min := 0, p95 := 0 }
  | h :: _ =>
    let sum := hist.foldl (fun s lag => s + lag) 0
    let mx := hist.foldl (fun m lag => if lag > m then lag else m) h
    let mn := hist.foldl (fun m lag => if lag < m then lag else m) h
    let mean := sum / (hist.length : ℚ)
    let sorted := sortPasses hist.length hist
    let idx0 := p95Index hist.length
    let idx := if idx0 ≥ hist.length then hist.length - 1 else idx0
    { mean := mean, max := mx, min := mn, p95 := sorted.getD idx 0 }

/-- internal/metrics/collector.go calculateEventLoopUtilization. -/
def calculateEventLoopUtilization (currentLag : ℚ) : ℚ :=
  if currentLag ≤ 1 then currentLag * 10
  else min 100 (10 + (currentLag - 1) * 5)

/-- The environment the collector sees through the network and the OS:
whether the inspector discovery endpoint answers HTTP GET /json, the session
list it returns (each entry carrying an optional webSocketDebuggerUrl), and
the CPU percentage the OS reports for the monitored process (none when the
process query fails). -/
structure InspectorEnv where
  reachable : Bool
  sessions : List (Option String)
  processCpu : Option ℚ
deriving DecidableEq

/-- getInspectorWebSocketURL: HTTP GET on the /json discovery endpoint, then
the webSocketDebuggerUrl field of the first session; fails when the endpoint
is unreachable, the session list is empty, or the field is missing. -/
def getInspectorWebSocketURL (env : InspectorEnv) : Option String :=
  if env.reachable then
    match env.sessions with
    | [] => none
    | s :: _ => s
  else none

/-- executeScript: the source performs no remote execution; it reads the CPU
percentage of the monitored process and simulates a lag of
0.5 + cpuPercent / 100 * 50, failing only when the process query fails. -/
def executeScript (env : InspectorEnv) : Option ℚ :=
  match env.processCpu with
  | none => none
  | some cpuPercent => some (1 / 2 + cpuPercent / 100 * 50)

/-- measureEventLoopLag: endpoint discovery, then the (simulated) script
execution; the float64 cast of the result always succeeds. -/
def measureEventLoopLag (env : InspectorEnv) : Option ℚ :=
  match getInspectorWebSocketURL env with
  | none => none
  | some _ => executeScript env

/-- CollectEventLoop: the lag falls back to 0 when the measurement fails,
the lag is appended to the rolling window, and statistics and the derived
utilization are computed.  The function never returns an error. -/
def collectEventLoop (env : InspectorEnv) (hist : List ℚ) (now : Nat) :
    EventLoopMetrics × List ℚ :=
  let lag := match measureEventLoopLag env with
    | some v => v
    | none => 0
  let hist := pushLag hist lag
  let stats := calculateEventLoopStats hist
  let utilization := calculateEventLoopUtilization lag
  ({ lag := lag, mean := stats.mean, max := stats.max, min := stats.min,
     p95 := stats.p95, utilization := utilization, timestamp := now }, hist)

/-- getGCMetrics: the source comment reads simplified implementation, would
use CDP in production; the body ignores the inspector entirely and always
succeeds with fixed simulated values (durations in milliseconds). -/
def getGCMetrics (env : InspectorEnv) (now : Nat) : Option GCMetrics :=
  some { collections := 1, duration := 5 / 2,
         heapSizeBefore := 50 * 1024 * 1024, heapSizeAfter := 45 * 1024 * 1024,
         type := "minor", reason := "allocation_limit",
         collectionsTotal := 10, durationTotal := 25, timestamp := now }

/-- CollectGC: falls back to a zero record when getGCMetrics fails, a branch
that is unreachable because the stub never fails. -/
def collectGC (env : InspectorEnv) (now : Nat) : GCMetrics :=
  match getGCMetrics env now with
  | some metrics => metrics
  | none =>
    { collections := 0, duration := 0, heapSizeBefore := 0, heapSizeAfter := 0,
      type := "unknown", reason := "unknown", collectionsTotal := 0,
      durationTotal := 0, timestamp := now }

/-- getHandleMetrics: stub that always succeeds with fixed simulated
values. -/
def getHandleMetrics (env : InspectorEnv) (now : Nat) : Option HandleMetrics :=
  some { active := 15, refs := 8, timers := 3, tcpSockets := 2, udpSockets := 0,
         files := 2, timestamp := now }

/-- CollectHandles: falls back to a zero record when getHandleMetrics fails,
a branch that is unreachable because the stub never fails. -/
def collectHandles (env : InspectorEnv) (now : Nat) : HandleMetrics :=
  match getHandleMetrics env now with
  | some metrics => metrics
  | none =>
    { active := 0, refs := 0, timers := 0, tcpSockets := 0, udpSockets := 0,
      files := 0, timestamp := now }

/-- The fixed heap space table of getV8Metrics. -/
def simHeapSpaces : List (String × Nat) :=
  [("new_space", 10 * 1024 * 1024), ("old_space", 40 * 1024 * 1024),
   ("code_space", 5 * 1024 * 1024), ("map_space", 2 * 1024 * 1024),
   ("large_object", 8 * 1024 * 1024)]

/-- getV8Metrics: stub that always succeeds with the fixed heap space
table. -/
def getV8Metrics (env : InspectorEnv) (now : Nat) : Option V8Metrics :=
  some { heapSpaceUsed := simHeapSpaces, heapSpaceSize := simHeapSpaces,
         heapSpaceAvailable := simHeapSpaces, mallocedMemory := 15 * 1024 * 1024,
         peakMallocedMemory := 20 * 1024 * 1024, timestamp := now }

/-- CollectV8: falls back to empty maps when getV8Metrics fails, a branch
that is unreachable because the stub never fails. -/
def collectV8 (env : InspectorEnv) (now : Nat) : V8Metrics :=
  match getV8Metrics env now with
  | some metrics => metrics
  | none =>
    { heapSpaceUsed := [], heapSpaceSize := [], heapSpaceAvailable := [],
      mallocedMemory := 0, peakMallocedMemory := 0, timestamp := now }

/-- An environment whose inspector endpoint is unreachable while the process
itself answers OS queries (CPU reads 12 percent). -/
def envInspectorDown : InspectorEnv :=
  { reachable := false, sessions := [], processCpu := some 12 }

/-- C2 (evaluation of the code at the failing input): with a reachable
process but an unreachable inspector endpoint, no collector returns an error
and the event loop lag is 0 as the claim states; but the GC, handle and
heap-space sub-collections return the fixed simulated values of the stub
clients — 1 collection of duration 2.5ms, 15 active handles, five nonempty
heap spaces — not the documented zero defaults, because the stubs never fail
and the fallback branches are dead code. -/
theorem c2_stub_divergence :
    (collectEventLoop envInspectorDown [] 0).1.lag = 0
    ∧ (collectGC envInspectorDown 0).duration = 5 / 2
    ∧ ¬ (collectGC envInspectorDown 0).duration = 0
    ∧ (collectGC envInspectorDown 0).collections = 1
    ∧ (collectHandles envInspectorDown 0).active = 15
    ∧ ¬ (collectHandles envInspectorDown 0).active = 0
    ∧ (collectV8 envInspectorDown 0).heapSpaceUsed ≠ [] := by
  refine ⟨rfl, rfl, ?_, rfl, rfl, by decide, by decide⟩
  show ¬ (5 / 2 : ℚ) = 0
  norm_num

lemma pushLag_length_le (hist : List ℚ) (lag : ℚ) (h : hist.length ≤ 100) :
    (pushLag hist lag).length ≤ 100 := by
  simp only [pushLag]
  split <;> simp_all

lemma foldl_pushLag_length_le (xs : List ℚ) (hist : List ℚ)
    (h : hist.length ≤ 100) :
    (List.foldl pushLag hist xs).length ≤ 100 := by
  induction xs generalizing hist with
  | nil => simpa
  | cons x xs ih => exact ih _ (pushLag_length_le _ _ h)

lemma pushLag_of_le (hist : List ℚ) (lag : ℚ) (h : hist.length ≤ 99) :
    pushLag hist lag = hist ++ [lag] := by
  have hcond : ¬ ((hist ++ [lag]).length > 100) := by
    simp only [List.length_append, List.length_singleton]
    omega
  simp only [pushLag, if_neg hcond]

lemma pushLag_at_capacity (hist : List ℚ) (lag : ℚ) (h : hist.length = 100) :
    pushLag hist lag = hist.tail ++ [lag] := by
  have hcond : (hist ++ [lag]).length > 100 := by
    simp [h]
  simp only [pushLag, if_pos hcond]
  cases hist with
  | nil => simp at h
  | cons a t => simp

lemma foldl_pushLag_append (xs : List ℚ) (hist : List ℚ)
    (h : hist.length + xs.length ≤ 100) :
    List.foldl pushLag hist xs = hist ++ xs := by
  induction xs generalizing hist with
  | nil => simp
  | cons x xs ih =>
    have hx : pushLag hist x = hist ++ [x] := by
      apply pushLag_of_le
      simp at h
      omega
    rw [List.foldl_cons, hx, ih]
    · simp
    · simp at h ⊢
      omega

/-- C4: the rolling lag window is bounded by its capacity 100 and evicts in
FIFO order: any sequence of samples pushed through the collection step from
the empty window leaves at most 100 entries; a push at capacity drops
exactly the oldest element; and after 101 pushes only the most recent 100
remain, so the evicted first value no longer influences the reported
mean, max, min or p95. -/
theorem c4_window_fifo :
    (∀ xs : List ℚ, (List.foldl pushLag [] xs).length ≤ 100)
    ∧ (∀ (hist : List ℚ) (lag : ℚ), hist.length = 100 →
        pushLag hist lag = hist.tail ++ [lag])
    ∧ (∀ xs : List ℚ, xs.length = 101 →
        List.foldl pushLag [] xs = xs.tail
        ∧ calculateEventLoopStats (List.foldl pushLag [] xs)
            = calculateEventLoopStats xs.tail) := by
  refine ⟨fun xs => foldl_pushLag_length_le xs [] (by simp),
    fun hist lag h => pushLag_at_capacity hist lag h, fun xs h => ?_⟩
  have hne : xs ≠ [] := by
    intro hnil
    rw [hnil] at h
    simp at h
  rcases (List.eq_nil_or_concat xs).resolve_left hne with ⟨ys, z, rfl⟩
  simp only [List.concat_eq_append] at h ⊢
  have hys : ys.length = 100 := by
    simp at h
    omega
  have h1 : List.foldl pushLag [] ys = ys := by
    have := foldl_pushLag_append ys [] (by simp [hys])
    simpa using this
  have h2 : List.foldl pushLag [] (ys ++ [z]) = ys.tail ++ [z] := by
    rw [List.foldl_append, h1, List.foldl_cons, List.foldl_nil,
      pushLag_at_capacity ys z hys]
  have h3 : (ys ++ [z]).tail = ys.tail ++ [z] := by
    cases ys with
    | nil => simp at hys
    | cons a t => simp
  rw [h2, h3]
  exact ⟨rfl, rfl⟩

/-- C4 witness: the bound, the eviction equation and the 101-sample scenario
applied to concrete windows: the constant window of 100 zeros, and the
sample sequence 1,2,...,0 of length 101 rendered as 1 :: replicate 100 0. -/
theorem c4_window_fifo_witness :
    (List.foldl pushLag [] (List.replicate 101 (0 : ℚ))).length ≤ 100
    ∧ ((List.replicate 100 (0 : ℚ)).length = 100
       ∧ pushLag (List.replicate 100 (0 : ℚ)) 7
           = (List.replicate 100 (0 : ℚ)).tail ++ [7])
    ∧ ((1 :: List.replicate 100 (0 : ℚ)).length = 101
       ∧ List.foldl pushLag [] (1 :: List.replicate 100 (0 : ℚ))
           = (1 :: List.replicate 100 (0 : ℚ)).tail
       ∧ calculateEventLoopStats (List.foldl pushLag [] (1 :: List.replicate 100 (0 : ℚ)))
           = calculateEventLoopStats (1 :: List.replicate 100 (0 : ℚ)).tail) :=
  ⟨c4_window_fifo.1 (List.replicate 101 0),
   ⟨by simp, c4_window_fifo.2.1 (List.replicate 100 0) 7 (by simp)⟩,
   ⟨by simp, c4_window_fifo.2.2 (1 :: List.replicate 100 0) (by simp)⟩⟩

/-- C7: the derived utilization is a monotonically non-decreasing saturating
function of the latest lag: for lag between 0 and 1 it equals lag times 10,
for lag above 1 it is 10 plus 5 per unit of extra lag capped at 100, and it
never exceeds the hard ceiling 100. -/
theorem c7_utilization :
    (∀ l1 l2 : ℚ, l1 ≤ l2 →
       calculateEventLoopUtilization l1 ≤ calculateEventLoopUtilization l2)
    ∧ (∀ lag : ℚ, 0 ≤ lag → lag ≤ 1 →
        calculateEventLoopUtilization lag = lag * 10)
    ∧ (∀ lag : ℚ, 1 < lag →
        calculateEventLoopUtilization lag = min 100 (10 + (lag - 1) * 5))
    ∧ (∀ lag : ℚ, calculateEventLoopUtilization lag ≤ 100) := by
  refine ⟨fun l1 l2 h => ?_, fun lag h0 h1 => ?_, fun lag h => ?_, fun lag => ?_⟩
  · unfold calculateEventLoopUtilization
    split_ifs with h1 h2 h2
    · linarith
    · refine le_min (by linarith) (by linarith)
    · linarith
    · exact min_le_min le_rfl (by linarith)
  · simp [calculateEventLoopUtilization, h1]
  · rw [calculateEventLoopUtilization, if_neg (by linarith)]
  · unfold calculateEventLoopUtilization
    split_ifs with h1
    · linarith
    · exact min_le_left _ _

/-- C7 witness: the utilization theorem applied at the concrete lags 0 and 2
(monotonicity), one half (linear region), 3 (upper linear region) and 25
(ceiling). -/
theorem c7_utilization_witness :
    ((0 : ℚ) ≤ 2
      ∧ calculateEventLoopUtilization 0 ≤ calculateEventLoopUtilization 2)
    ∧ ((0 : ℚ) ≤ 1 / 2 ∧ (1 / 2 : ℚ) ≤ 1
      ∧ calculateEventLoopUtilization (1 / 2) = (1 / 2) * 10)
    ∧ ((1 : ℚ) < 3
      ∧ calculateEventLoopUtilization 3 = min 100 (10 + (3 - 1) * 5))
    ∧ calculateEventLoopUtilization 25 ≤ 100 :=
  ⟨⟨by norm_num, c7_utilization.1 0 2 (by norm_num)⟩,
   ⟨by norm_num, by norm_num,
    c7_utilization.2.1 (1 / 2) (by norm_num) (by norm_num)⟩,
   ⟨by norm_num, c7_utilization.2.2.1 3 (by norm_num)⟩,
   c7_utilization.2.2.2 25⟩

lemma bpass_perm : ∀ l : List ℚ, (bpass l).Perm l
  | [] => by simp [bpass]
  | [a] => by simp [bpass]
  | a :: b :: rest => by
    simp only [bpass]
    split
    · exact ((bpass_perm (a :: rest)).cons b).trans (List.Perm.swap a b rest)
    · exact (bpass_perm (b :: rest)).cons a
termination_by l => l.length

lemma bpass_of_sorted : ∀ l : List ℚ, l.Sorted (· ≤ ·) → bpass l = l
  | [], _ => by simp [bpass]
  | [a], _ => by simp [bpass]
  | a :: b :: rest, h => by
    have hab : a ≤ b := (List.sorted_cons.mp h).1 b (by simp)
    have ht : (b :: rest).Sorted (· ≤ ·) := (List.sorted_cons.mp h).2
    simp only [bpass]
    rw [if_neg (not_lt.mpr hab), bpass_of_sorted (b :: rest) ht]
termination_by l => l.length

lemma bpass_concat : ∀ (a : ℚ) (l : List ℚ),
    ∃ l2 m, bpass (a :: l) = l2 ++ [m] ∧ ∀ x ∈ l2, x ≤ m
  | a, [] => ⟨[], a, by simp [bpass], by simp⟩
  | a, b :: rest => by
    by_cases hab : a > b
    · obtain ⟨l2, m, heq, hle⟩ := bpass_concat a rest
      have ham : a ≤ m := by
        have hmem : a ∈ bpass (a :: rest) :=
          ((bpass_perm (a :: rest)).mem_iff).mpr (by simp)
        rw [heq] at hmem
        rcases List.mem_append.mp hmem with hx | hx
        · exact hle a hx
        · simp at hx
          exact le_of_eq hx
      refine ⟨b :: l2, m, ?_, ?_⟩
      · simp only [bpass]
        rw [if_pos hab, heq]
        rfl
      · intro x hx
        rcases List.mem_cons.mp hx with rfl | hx
        · exact le_trans (le_of_lt hab) ham
        · exact hle x hx
    · obtain ⟨l2, m, heq, hle⟩ := bpass_concat b rest
      have hbm : b ≤ m := by
        have hmem : b ∈ bpass (b :: rest) :=
          ((bpass_perm (b :: rest)).mem_iff).mpr (by simp)
        rw [heq] at hmem
        rcases List.mem_append.mp hmem with hx | hx
        · exact hle b hx
        · simp at hx
          exact le_of_eq hx
      refine ⟨a :: l2, m, ?_, ?_⟩
      · simp only [bpass]
        rw [if_neg hab, heq]
        rfl
      · intro x hx
        rcases List.mem_cons.mp hx with rfl | hx
        · exact le_trans (not_lt.mp hab) hbm
        · exact hle x hx
termination_by a l => l.length

lemma bpass_append_sorted : ∀ (l back : List ℚ), back.Sorted (· ≤ ·) →
    (∀ x ∈ l, ∀ y ∈ back, x ≤ y) → bpass (l ++ back) = bpass l ++ back
  | [], back, hs, _ => by simp [bpass, bpass_of_sorted back hs]
  | [a], back, hs, hd => by
    cases back with
    | nil => simp
    | cons b rest =>
      have hab : a ≤ b := hd a (by simp) b (by simp)
      show bpass (a :: b :: rest) = bpass [a] ++ b :: rest
      simp only [bpass]
      rw [if_neg (not_lt.mpr hab), bpass_of_sorted (b :: rest) hs]
      rfl
  | a :: b :: l, back, hs, hd => by
    have hd1 : ∀ x ∈ a :: l, ∀ y ∈ back, x ≤ y := by
      intro x hx y hy
      refine hd x ?_ y hy
      rcases List.mem_cons.mp hx with rfl | hx
      · simp
      · simp [hx]
    have hd2 : ∀ x ∈ b :: l, ∀ y ∈ back, x ≤ y := by
      intro x hx y hy
      refine hd x ?_ y hy
      rcases List.mem_cons.mp hx with rfl | hx
      · simp
      · simp [hx]
    show bpass (a :: b :: (l ++ back)) = bpass (a :: b :: l) ++ back
    simp only [bpass]
    split
    · rw [show a :: (l ++ back) = (a :: l) ++ back from rfl,
        bpass_append_sorted (a :: l) back hs hd1]
      rfl
    · rw [show b :: (l ++ back) = (b :: l) ++ back from rfl,
        bpass_append_sorted (b :: l) back hs hd2]
      rfl
termination_by l back => l.length

lemma sortPasses_of_sorted : ∀ (k : Nat) (l : List ℚ), l.Sorted (· ≤ ·) →
    sortPasses k l = l
  | 0, _, _ => rfl
  | k + 1, l, h => by
    show sortPasses k (bpass l) = l
    rw [bpass_of_sorted l h]
    exact sortPasses_of_sorted k l h

lemma sortPasses_perm : ∀ (k : Nat) (l : List ℚ), (sortPasses k l).Perm l
  | 0, l => List.Perm.refl l
  | k + 1, l => (sortPasses_perm k (bpass l)).trans (bpass_perm l)

lemma sortPasses_sorted_aux : ∀ (k : Nat) (l back : List ℚ),
    back.Sorted (· ≤ ·) → (∀ x ∈ l, ∀ y ∈ back, x ≤ y) → l.length ≤ k →
    (sortPasses k (l ++ back)).Sorted (· ≤ ·)
  | 0, l, back, hs, _, hlen => by
    have hnil : l = [] := List.length_eq_zero.mp (Nat.le_zero.mp hlen)
    subst hnil
    simpa [sortPasses] using hs
  | k + 1, [], back, hs, _, _ => by
    rw [List.nil_append, sortPasses_of_sorted (k + 1) back hs]
    exact hs
  | k + 1, a :: l, back, hs, hd, hlen => by
    obtain ⟨l2, m, heq, hle⟩ := bpass_concat a l
    have hmem : ∀ x ∈ l2 ++ [m], x ∈ a :: l := fun x hx =>
      ((bpass_perm (a :: l)).mem_iff).mp (heq ▸ hx)
    have hm_mem : m ∈ a :: l := hmem m (by simp)
    have hs2 : (m :: back).Sorted (· ≤ ·) :=
      List.sorted_cons.mpr ⟨fun y hy => hd m hm_mem y hy, hs⟩
    have hd2 : ∀ x ∈ l2, ∀ y ∈ m :: back, x ≤ y := by
      intro x hx y hy
      rcases List.mem_cons.mp hy with rfl | hy
      · exact hle x hx
      · exact hd x (hmem x (List.mem_append_left _ hx)) y hy
    have hlen2 : l2.length ≤ k := by
      have hlceq := (bpass_perm (a :: l)).length_eq
      rw [heq] at hlceq
      simp only [List.length_append, List.length_singleton, List.length_cons]
        at hlceq hlen
      omega
    show (sortPasses k (bpass ((a :: l) ++ back))).Sorted (· ≤ ·)
    rw [bpass_append_sorted (a :: l) back hs hd, heq, List.append_assoc,
      List.singleton_append]
    exact sortPasses_sorted_aux k l2 (m :: back) hs2 hd2 hlen2

lemma sortPasses_sorted (l : List ℚ) :
    (sortPasses l.length l).Sorted (· ≤ ·) := by
  have haux := sortPasses_sorted_aux l.length l [] (by simp) (by simp) le_rfl
  simpa using haux

lemma clamp_eq_min (i n : Nat) : (if i ≥ n then n - 1 else i) = min i (n - 1) := by
  split <;> omega

lemma p95Index_eq (n : Nat) : p95Index n = 19 * n / 20 := by
  unfold p95Index
  rw [show ((n : ℚ) * (95 / 100)) = (((19 * n : ℕ) : ℤ) : ℚ) / ((20 : ℕ) : ℚ) by
    push_cast
    ring]
  rw [Rat.floor_intCast_div_natCast]
  rw [show ((19 * n : ℕ) : ℤ) / ((20 : ℕ) : ℤ) = ((19 * n / 20 : ℕ) : ℤ) from
    (Int.ofNat_div _ _).symm]
  exact Int.toNat_natCast _

/-- For a nonempty window, the reported p95 is the entry of any ascending
sorted permutation of the window at the clamped nearest-rank index. -/
lemma p95_spec (hist sortedHist : List ℚ) (hne : hist ≠ [])
    (hperm : sortedHist.Perm hist) (hsorted : sortedHist.Sorted (· ≤ ·)) :
    (calculateEventLoopStats hist).p95
      = sortedHist.getD (min (p95Index hist.length) (hist.length - 1)) 0 := by
  have hkey : sortedHist = sortPasses hist.length hist :=
    List.eq_of_perm_of_sorted
      (hperm.trans (sortPasses_perm hist.length hist).symm) hsorted
      (sortPasses_sorted hist)
  cases hist with
  | nil => exact absurd rfl hne
  | cons h t =>
    rw [hkey]
    simp only [calculateEventLoopStats]
    rw [clamp_eq_min]

/-- C3: for every nonempty rolling window, the reported 95th percentile is
the element of the window sorted ascending at index floor(0.95 times the
length), clamped to length minus 1 (nearest rank, no interpolation); for the
window 1..10 the p95 is exactly 10; and the empty window yields all-zero
statistics (mean, max, min, p95). -/
theorem c3_p95_nearest_rank :
    (∀ hist sortedHist : List ℚ, hist ≠ [] → sortedHist.Perm hist →
       sortedHist.Sorted (· ≤ ·) →
       (calculateEventLoopStats hist).p95
         = sortedHist.getD (min (p95Index hist.length) (hist.length - 1)) 0)
    ∧ (calculateEventLoopStats [1, 2, 3, 4, 5, 6, 7, 8, 9, 10]).p95 = 10
    ∧ calculateEventLoopStats [] = { mean := 0, max := 0, min := 0, p95 := 0 } := by
  refine ⟨p95_spec, ?_, rfl⟩
  rw [p95_spec [1, 2, 3, 4, 5, 6, 7, 8, 9, 10] [1, 2, 3, 4, 5, 6, 7, 8, 9, 10]
    (by simp) (List.Perm.refl _) (by decide)]
  rw [show ([1, 2, 3, 4, 5, 6, 7, 8, 9, 10] : List ℚ).length = 10 from rfl,
    p95Index_eq]
  decide

/-- C3 witness: the nearest-rank property applied to the concrete window
[2, 1] with [1, 2] as its sorted permutation. -/
theorem c3_p95_nearest_rank_witness :
    ([2, 1] : List ℚ) ≠ [] ∧ ([1, 2] : List ℚ).Perm [2, 1]
    ∧ ([1, 2] : List ℚ).Sorted (· ≤ ·)
    ∧ (calculateEventLoopStats [2, 1]).p95
        = ([1, 2] : List ℚ).getD
            (min (p95Index ([2, 1] : List ℚ).length)
              (([2, 1] : List ℚ).length - 1)) 0 :=
  ⟨by simp, List.Perm.swap 2 1 [], by decide,
   c3_p95_nearest_rank.1 [2, 1] [1, 2] (by simp) (List.Perm.swap 2 1 [])
     (by decide)⟩

/-- The mutable state of the monitor (monitor package): the running flag,
the pid cached into its configuration, and the rolling lag window of its
collector. -/
structure MonitorState where
  running : Bool
  pid : Int
  eventLoopHist : List ℚ
deriving DecidableEq

/-- The outcome of the entry step of Monitor.Start. -/
inductive StartOutcome where
  | started
  | alreadyRunning
deriving DecidableEq

/-- Monitor.Start, entry step: under the mutex, an already-running monitor
returns the already-running error and changes nothing (so no second polling
loop begins); otherwise the running flag is set and the polling loop is
entered. -/
def monitorStart (m : MonitorState) : StartOutcome × MonitorState :=
  if m.running then (.alreadyRunning, m)
  else (.started, { m with running := true })

/-- C9: Start on a running monitor fails with the AlreadyRunning error and
leaves the entire monitor state unchanged; Start on an idle monitor reports
success, sets the running flag, and changes nothing else. -/
theorem c9_start (m : MonitorState) :
    (m.running = true → monitorStart m = (.alreadyRunning, m))
    ∧ (m.running = false →
        (monitorStart m).1 = .started
        ∧ (monitorStart m).2.running = true
        ∧ (monitorStart m).2.pid = m.pid
        ∧ (monitorStart m).2.eventLoopHist = m.eventLoopHist) := by
  constructor
  · intro h
    simp [monitorStart, h]
  · intro h
    simp [monitorStart, h]

/-- C9 witness: the Start theorem applied to a concrete running state and to
the matching idle state. -/
theorem c9_start_witness :
    ({ running := true, pid := 4242, eventLoopHist := [] } : MonitorState).running
      = true
    ∧ monitorStart { running := true, pid := 4242, eventLoopHist := [] }
        = (.alreadyRunning, { running := true, pid := 4242, eventLoopHist := [] })
    ∧ ({ running := false, pid := 4242, eventLoopHist := [] } : MonitorState).running
        = false
    ∧ (monitorStart { running := false, pid := 4242, eventLoopHist := [] }).1
        = .started
    ∧ (monitorStart { running := false, pid := 4242, eventLoopHist := [] }).2.running
        = true :=
  ⟨rfl, (c9_start _).1 rfl, rfl, ((c9_start _).2 rfl).1, ((c9_start _).2 rfl).2.1⟩

end Stackpulse
